import Mathlib

/-!
Shallow embedding of the Wayland backend of miniquad
(src/native/linux_wayland.rs): the keyboard repeat-timer subsystem,
the listener callbacks for pointer axis, keyboard key, repeat-info,
registry globals and toplevel configure, and the timer branch of the
blocking event loop.  Machine integers are modelled as Nat/Int with
explicit wrap where the source casts; the f32 values flowing through
the axis handler are modelled exactly (see F32 below); the global
EVENTS queue is explicit state threaded through each handler.
-/

/-- Model of the f32 values used by the pointer handlers.  The only
float operations performed by the source on these values are:
conversion from i32 followed by division by 256.0 (preserves sign and
zeroness exactly; the quotient of a nonzero value by its own absolute
value is exactly 1.0 or -1.0 in IEEE arithmetic, with no rounding), a
division, negation, and abs.  These are modelled over the rationals
with an explicit NaN element.  IEEE division of a nonzero finite value
by 0.0 yields an infinity, but in this file division is only applied
with the divisor equal to the absolute value of the dividend, so a
zero divisor forces a zero dividend (0.0 / 0.0 = NaN); the model maps
every zero-divisor case to nan. -/
inductive F32 where
  | finite (q : ℚ)
  | nan
deriving DecidableEq, Repr

def F32.abs : F32 → F32
  | .finite q => .finite |q|
  | .nan => .nan

def F32.div : F32 → F32 → F32
  | .finite a, .finite b => if b = 0 then .nan else .finite (a / b)
  | _, _ => .nan

def F32.neg : F32 → F32
  | .finite q => .finite (-q)
  | .nan => .nan

/-- Source: fn wl_fixed_to_double(f: i32) -> f32 { (f as f32) / 256.0 }.
The i32-to-f32 cast rounds to nearest for magnitudes at least 2^24 but
preserves sign and zeroness, and
the division by the exact power of two 256.0 is exact down to well
above the subnormal range; the claims settled here depend only on the
sign and zeroness of the result, which the exact rational value
models faithfully. -/
def wl_fixed_to_double (f : Int) : F32 := .finite ((f : ℚ) / 256)

/-- Source enum MouseButton (miniquad event module), as used by the
pointer button handler. -/
inductive MouseButton where
  | Left
  | Right
  | Middle
  | Unknown
deriving DecidableEq, Repr

/-- Source: pub enum WaylandKeyState { Released = 0, Pressed = 1, Repeat = 2 }. -/
inductive WaylandKeyState where
  | Released
  | Pressed
  | Repeat
deriving DecidableEq, Repr

/-- Source: enum WaylandEvent.  Keys are c_uint, modelled as Nat;
pointer coordinates and axis values are f32, modelled as F32. -/
inductive WaylandEvent where
  | KeyboardLeave
  | KeyboardKey (key : Nat) (state : WaylandKeyState)
  | PointerMotion (x y : F32)
  | PointerButton (button : MouseButton) (state : Bool)
  | PointerAxis (x y : F32)
  | FilesDropped (filenames : String)
deriving DecidableEq, Repr

/-- Model of core::time::Duration: whole seconds plus subsecond
nanoseconds, both unsigned. -/
structure Duration where
  secs : Nat
  nanos : Nat
deriving DecidableEq, Repr

/-- Duration::from_millis (argument is u64). -/
def Duration.from_millis (ms : Nat) : Duration :=
  ⟨ms / 1000, (ms % 1000) * 1000000⟩

/-- Duration::from_micros (argument is u64). -/
def Duration.from_micros (us : Nat) : Duration :=
  ⟨us / 1000000, (us % 1000000) * 1000⟩

def Duration.as_secs (d : Duration) : Nat := d.secs

def Duration.subsec_nanos (d : Duration) : Nat := d.nanos

/-- Source: pub enum RepeatInfo { Repeat { delay, gap }, NoRepeat }. -/
inductive RepeatInfo where
  | Repeat (delay : Duration) (gap : Duration)
  | NoRepeat
deriving DecidableEq, Repr

/-- Source: impl Default for RepeatInfo (values copied from winit). -/
def RepeatInfo.default : RepeatInfo :=
  .Repeat (Duration.from_millis 200) (Duration.from_millis 40)

/-- libc::timespec, the two fields used by the source. -/
structure Timespec where
  tv_sec : Int
  tv_nsec : Int
deriving DecidableEq, Repr

/-- libc::itimerspec as written by timerfd_settime. -/
structure Itimerspec where
  it_interval : Timespec
  it_value : Timespec
deriving DecidableEq, Repr

/-- Source: fn new_itimerspec() -> libc::itimerspec, all fields zero.
An all-zero it_value disarms the timer. -/
def new_itimerspec : Itimerspec := ⟨⟨0, 0⟩, ⟨0, 0⟩⟩

/-- Source: struct KeyboardContext.  The timerfd file descriptor is
replaced by the kernel-side timer specification it refers to: the
`timer` field holds the itimerspec most recently written through
timerfd_settime (all zero means disarmed). -/
structure KeyboardContext where
  enter_serial : Option Nat
  repeat_info : RepeatInfo
  repeated_key : Option Nat
  timer : Itimerspec
deriving DecidableEq, Repr

/-- Source: KeyboardContext::new().  The freshly created timerfd is
disarmed. -/
def KeyboardContext.new : KeyboardContext :=
  ⟨none, RepeatInfo.default, none, new_itimerspec⟩

/-- Source: KeyboardContext::key_down.  On Repeat policy, records the
key and arms the timer with it_value = delay and it_interval = gap; on
NoRepeat, clears the tracked key and writes the all-zero itimerspec
(disarm).  timerfd_settime is called in both branches. -/
def KeyboardContext.key_down (ctx : KeyboardContext) (key : Nat) : KeyboardContext :=
  match ctx.repeat_info with
  | .Repeat delay gap =>
      { ctx with
        repeated_key := some key,
        timer := ⟨⟨(gap.as_secs : Int), (gap.subsec_nanos : Int)⟩,
                  ⟨(delay.as_secs : Int), (delay.subsec_nanos : Int)⟩⟩ }
  | .NoRepeat =>
      { ctx with repeated_key := none, timer := new_itimerspec }

/-- Source: KeyboardContext::key_up.  If the released key is the
tracked one, clears it and disarms the timer; otherwise does nothing.
The second component is the argument of the timerfd_settime call, or
none when timerfd_settime is not called at all. -/
def KeyboardContext.key_up (ctx : KeyboardContext) (key : Nat) :
    KeyboardContext × Option Itimerspec :=
  if ctx.repeated_key = some key then
    ({ ctx with repeated_key := none, timer := new_itimerspec }, some new_itimerspec)
  else
    (ctx, none)

/-- Source: the `for _ in 0..count { EVENTS.push(...) }` loop in
WaylandPayload::block_on_new_event, pushing one Repeat event per
iteration for the given key. -/
def pushRepeats (key : Nat) : Nat → List WaylandEvent → List WaylandEvent
  | 0, events => events
  | n + 1, events =>
      pushRepeats key n (events ++ [WaylandEvent.KeyboardKey key WaylandKeyState.Repeat])

/-- Source: the timer branch of WaylandPayload::block_on_new_event
(the body run when the repeat timerfd polls readable): `count` is the
expiration counter read from the timerfd; when a key is tracked, that
many Repeat events are pushed onto EVENTS, otherwise nothing. -/
def timer_wake_drain (repeated_key : Option Nat) (count : Nat)
    (events : List WaylandEvent) : List WaylandEvent :=
  match repeated_key with
  | some key => pushRepeats key count events
  | none => events

/-- Result of a keyboard key callback on the modelled state: the
repeat context, the EVENTS queue, and the lines printed to stderr. -/
structure KeyHandlerResult where
  ctx : KeyboardContext
  events : List WaylandEvent
  log : List String
deriving DecidableEq, Repr

/-- Source: keyboard_handle_key.  The raw wl_keyboard_key_state (u32,
modelled as Nat) is parsed: 0 Released, 1 Pressed, 2 Repeat; anything
else prints "Unknown wl_keyboard::key_state" and returns.  On a
release, KeyboardContext::key_up runs before the event is pushed onto
EVENTS (the source comment: the release must stop key repeat here,
otherwise repeat events could be pushed into EVENTS before the release
event is handled). -/
def keyboard_handle_key (ctx : KeyboardContext) (events : List WaylandEvent)
    (key : Nat) (rawState : Nat) : KeyHandlerResult :=
  let parsed : Option WaylandKeyState :=
    match rawState with
    | 0 => some .Released
    | 1 => some .Pressed
    | 2 => some .Repeat
    | _ => none
  match parsed with
  | none => ⟨ctx, events, ["Unknown wl_keyboard::key_state"]⟩
  | some state =>
      let ctx := if state = WaylandKeyState.Released then (ctx.key_up key).1 else ctx
      ⟨ctx, events ++ [WaylandEvent.KeyboardKey key state], []⟩

/-- Rust cast `x as u64` for an Int holding an i32 value: wraps modulo
2^64. -/
def u64_of_i32 (x : Int) : Nat := (x % (2 : Int) ^ 64).toNat

/-- Source: keyboard_handle_repeat_info.  rate and delay are i32.
A rate of 0 selects NoRepeat; otherwise delay is
Duration::from_millis(delay as u64) and the gap is
Duration::from_micros(1_000_000 / rate as u64), both casts wrapping
modulo 2^64. -/
def keyboard_handle_repeat_info (rate delay : Int) : RepeatInfo :=
  if rate = 0 then
    RepeatInfo.NoRepeat
  else
    RepeatInfo.Repeat (Duration.from_millis (u64_of_i32 delay))
      (Duration.from_micros (1000000 / u64_of_i32 rate))

/-- The session fields a recognized registry global is stored into. -/
inductive BoundGlobal where
  | compositor
  | subcompositor
  | xdg_wm_base
  | decoration_manager
  | viewporter
  | shm
  | seat
  | data_device_manager
deriving DecidableEq, Repr

/-- The interface names recognized by registry_add_object. -/
def recognizedNames : List String :=
  ["wl_compositor", "wl_subcompositor", "xdg_wm_base",
   "zxdg_decoration_manager", "zxdg_decoration_manager_v1",
   "wp_viewporter", "wl_shm", "wl_seat", "wl_data_device_manager"]

/-- Source: registry_add_object.  Matches the advertised interface
name; a recognized name is bound with wl_registry_bind at the version
written in the source (1 for most, 3 for the data device manager, and
4.min(version) for the seat) and the handle is stored on the payload;
an unrecognized name falls through to the empty arm and binds
nothing.  The result is the stored field together with the version
passed to wl_registry_bind, or none. -/
def registry_add_object (interface : String) (version : Nat) :
    Option (BoundGlobal × Nat) :=
  if interface = "wl_compositor" then some (.compositor, 1)
  else if interface = "wl_subcompositor" then some (.subcompositor, 1)
  else if interface = "xdg_wm_base" then some (.xdg_wm_base, 1)
  else if interface = "zxdg_decoration_manager" ∨
          interface = "zxdg_decoration_manager_v1" then
    some (.decoration_manager, 1)
  else if interface = "wp_viewporter" then some (.viewporter, 1)
  else if interface = "wl_shm" then some (.shm, 1)
  else if interface = "wl_seat" then some (.seat, min 4 version)
  else if interface = "wl_data_device_manager" then some (.data_device_manager, 3)
  else none

/-- The dimension effects of one toplevel configure callback: the size
passed to wl_egl_window_resize and the size passed to the application
handler resize_event, each none when not called. -/
structure ConfigureEffect where
  egl_resize : Option (Int × Int)
  resize_event : Option (Int × Int)
deriving DecidableEq, Repr

/-- Source: xdg_toplevel_handle_configure, dimension handling.  width
and height are i32.  decorWidth and barHeight stand for the constants
Decorations::WIDTH and Decorations::BAR_HEIGHT of the decorations
module (outside this file); hasDecorations is payload.decorations
being Some, and the event handler is installed.  On nonzero width and
height the EGL window is resized to
(width - WIDTH * 2, height - BAR_HEIGHT - WIDTH) when fallback
decorations are active and to (width, height) otherwise, and
resize_event receives (width, height) unadjusted; on a zero dimension
nothing happens. -/
def xdg_toplevel_handle_configure (decorWidth barHeight : Int)
    (hasDecorations : Bool) (width height : Int) : ConfigureEffect :=
  if width ≠ 0 ∧ height ≠ 0 then
    let eglDims :=
      if hasDecorations then
        (width - decorWidth * 2, height - barHeight - decorWidth)
      else
        (width, height)
    ⟨some eglDims, some (width, height)⟩
  else
    ⟨none, none⟩

/-- Source: pointer_handle_axis.  The fixed-point value is converted
with wl_fixed_to_double, then normalized by dividing it by its own
absolute value (`value /= value.abs()`); for axis 0 (vertical) the
sign is flipped and the value goes into the y slot, for axis 1
(horizontal) it goes unflipped into the x slot, and any other axis
pushes nothing.  The result is the list of events pushed onto
EVENTS. -/
def pointer_handle_axis (axis : Nat) (value : Int) : List WaylandEvent :=
  let v := F32.div (wl_fixed_to_double value) (F32.abs (wl_fixed_to_double value))
  if axis = 0 then
    [WaylandEvent.PointerAxis (F32.finite 0) (F32.neg v)]
  else if axis = 1 then
    [WaylandEvent.PointerAxis v (F32.finite 0)]
  else
    []

/-- Claim C1: the code under test violates the guard the spec demands.
At a vertical axis event whose fixed-point delta is 0 (the only input
converting to 0.0), pointer_handle_axis passes the zero through the
normalize-by-magnitude division, computing 0.0 / 0.0 = NaN, and
enqueues a scroll event whose y slot is NaN. -/
theorem axis_zero_delta_enqueues_nan :
    pointer_handle_axis 0 0 =
      [WaylandEvent.PointerAxis (F32.finite 0) F32.nan] := by
  simp [pointer_handle_axis, wl_fixed_to_double, F32.div, F32.abs, F32.neg]

/-- Claim C7: for every nonzero raw scroll delta the enqueued event has
unit magnitude in its populated slot; the sign flip applies only to
the vertical axis (axis 0): a negative raw vertical delta yields y = 1
and a positive one yields y = -1, while a horizontal delta (axis 1)
keeps its sign in the x slot. -/
theorem axis_normalization_sign (value : Int) (hv : value ≠ 0) :
    pointer_handle_axis 0 value =
      [WaylandEvent.PointerAxis (F32.finite 0)
        (F32.finite (if value < 0 then 1 else -1))] ∧
    pointer_handle_axis 1 value =
      [WaylandEvent.PointerAxis (F32.finite (if value < 0 then -1 else 1))
        (F32.finite 0)] := by
  have hq : ((value : ℚ) / 256) ≠ 0 :=
    div_ne_zero (Int.cast_ne_zero.mpr hv) (by norm_num)
  have habs : |((value : ℚ) / 256)| ≠ 0 := abs_ne_zero.mpr hq
  have hsign : ((value : ℚ) / 256) / |((value : ℚ) / 256)| =
      if value < 0 then -1 else 1 := by
    rcases lt_or_gt_of_ne hv with hneg | hpos
    · have hq0 : ((value : ℚ) / 256) < 0 :=
        div_neg_of_neg_of_pos (by exact_mod_cast hneg) (by norm_num)
      rw [if_pos hneg, abs_of_neg hq0, div_neg, div_self hq]
    · have hq0 : (0 : ℚ) < (value : ℚ) / 256 :=
        div_pos (by exact_mod_cast hpos) (by norm_num)
      rw [if_neg (by omega), abs_of_pos hq0, div_self hq]
  constructor
  · simp only [pointer_handle_axis, wl_fixed_to_double, F32.abs, F32.div,
      if_neg habs, hsign, F32.neg, if_pos rfl]
    split_ifs <;> norm_num
  · simp [pointer_handle_axis, wl_fixed_to_double, F32.abs, F32.div,
      if_neg habs, hsign]
    exact hv

/-- Concrete instance of axis_normalization_sign at raw delta -256
(fixed point -1.0). -/
theorem axis_normalization_sign_witness :
    pointer_handle_axis 0 (-256) =
      [WaylandEvent.PointerAxis (F32.finite 0)
        (F32.finite (if (-256 : Int) < 0 then 1 else -1))] ∧
    pointer_handle_axis 1 (-256) =
      [WaylandEvent.PointerAxis (F32.finite (if (-256 : Int) < 0 then -1 else 1))
        (F32.finite 0)] :=
  axis_normalization_sign (-256) (by decide)

/-- The repeat-push loop appends exactly `count` Repeat events for the
given key to the queue. -/
theorem pushRepeats_eq (key : Nat) :
    ∀ (count : Nat) (events : List WaylandEvent),
      pushRepeats key count events =
        events ++ List.replicate count
          (WaylandEvent.KeyboardKey key WaylandKeyState.Repeat) := by
  intro count
  induction count with
  | zero => intro events; simp [pushRepeats]
  | succ n ih =>
      intro events
      rw [pushRepeats, ih, List.append_assoc]
      simp [List.replicate_succ]

/-- Claim C2: when the loop wakes on the repeat timerfd and reads
expiration counter `count`, it enqueues exactly `count` KeyboardKey
events with Repeat state for the tracked key, and exactly zero events
when no key is tracked, for every value of the counter. -/
theorem timer_wake_repeat_count (rk : Option Nat) (count : Nat)
    (events : List WaylandEvent) :
    (∀ k, rk = some k →
      timer_wake_drain rk count events =
        events ++ List.replicate count
          (WaylandEvent.KeyboardKey k WaylandKeyState.Repeat) ∧
      (timer_wake_drain rk count events).length = events.length + count) ∧
    (rk = none → timer_wake_drain rk count events = events) := by
  constructor
  · intro k hk
    subst hk
    refine ⟨pushRepeats_eq k count events, ?_⟩
    rw [timer_wake_drain, pushRepeats_eq k count events]
    simp
  · intro hk
    subst hk
    rfl

/-- Concrete instance of timer_wake_repeat_count: key 30 tracked,
counter read as 3, three Repeat events enqueued. -/
theorem timer_wake_repeat_count_witness :
    timer_wake_drain (some 30) 3 [] =
      [] ++ List.replicate 3
        (WaylandEvent.KeyboardKey 30 WaylandKeyState.Repeat) ∧
    (timer_wake_drain (some 30) 3 []).length =
      List.length ([] : List WaylandEvent) + 3 :=
  (timer_wake_repeat_count (some 30) 3 []).1 30 rfl

/-- Claim C3: after key-down(k) followed directly by the key-release
handler for k (no intervening key-down of a different key), the repeat
context tracks no key and the timer holds the all-zero (disarmed)
itimerspec; the clearing and disarming happen inside the handler,
whose pushed release event is appended after the context update, so
the release event on the queue already reflects the cleared
context. -/
theorem key_release_clears_repeat (ctx : KeyboardContext)
    (events : List WaylandEvent) (k : Nat) :
    (keyboard_handle_key (ctx.key_down k) events k 0).ctx.repeated_key = none ∧
    (keyboard_handle_key (ctx.key_down k) events k 0).ctx.timer = new_itimerspec ∧
    (keyboard_handle_key (ctx.key_down k) events k 0).events =
      events ++ [WaylandEvent.KeyboardKey k WaylandKeyState.Released] := by
  rcases hri : ctx.repeat_info with ⟨d, g⟩ | _ <;>
    simp [keyboard_handle_key, KeyboardContext.key_down,
      KeyboardContext.key_up, hri]

/-- Claim C8: a keyboard key callback with a raw key-state value
outside {0, 1, 2} prints the unknown-state message and returns: the
repeat context is unchanged, nothing is enqueued, and no failure
occurs. -/
theorem unknown_key_state_ignored (ctx : KeyboardContext)
    (events : List WaylandEvent) (key rawState : Nat) (h : 3 ≤ rawState) :
    keyboard_handle_key ctx events key rawState =
      ⟨ctx, events, ["Unknown wl_keyboard::key_state"]⟩ := by
  match rawState, h with
  | n + 3, _ => rfl

/-- Concrete instance of unknown_key_state_ignored at raw state 7. -/
theorem unknown_key_state_ignored_witness :
    (3 ≤ 7) ∧
    keyboard_handle_key KeyboardContext.new [] 10 7 =
      ⟨KeyboardContext.new, [], ["Unknown wl_keyboard::key_state"]⟩ :=
  ⟨by decide, unknown_key_state_ignored KeyboardContext.new [] 10 7 (by decide)⟩

/-- Claim C9: a key-up for a key other than the tracked one (including
when no key is tracked) leaves the repeat context unchanged and makes
no timerfd_settime call at all (the timer is neither re-armed nor
disarmed). -/
theorem key_up_other_key_noop (ctx : KeyboardContext) (key : Nat)
    (h : ctx.repeated_key ≠ some key) :
    ctx.key_up key = (ctx, none) := by
  simp [KeyboardContext.key_up, h]

/-- Concrete instance of key_up_other_key_noop: fresh context (no
tracked key), key 5 released. -/
theorem key_up_other_key_noop_witness :
    KeyboardContext.new.repeated_key ≠ some 5 ∧
    KeyboardContext.new.key_up 5 = (KeyboardContext.new, none) :=
  ⟨by decide, key_up_other_key_noop KeyboardContext.new 5 (by decide)⟩

/-- Claim C4 counterexample: the claim that every recognized global is
bound at a fixed, hardcoded version that is never the maximum version
the compositor offered is false on the code.  A wl_seat advertised at
version 3 is bound at 4.min(3) = 3, exactly the maximum version
offered; and the seat bound version is not fixed, since advertising
version 10 binds at 4. -/
theorem registry_seat_version_counterexample :
    registry_add_object "wl_seat" 3 = some (BoundGlobal.seat, 3) ∧
    registry_add_object "wl_seat" 10 = some (BoundGlobal.seat, 4) :=
  ⟨rfl, rfl⟩

/-- Claim C4, amended: every recognized interface name is bound and
stored on the session — at the hardcoded version 1 or 3 independently
of the offered version for every interface except the seat, and at
the capped version min(4, offered) for the seat (which can therefore
equal the version the compositor offered); unrecognized interface
names bind nothing. -/
theorem registry_bind_versions (interface : String) (v : Nat) :
    (interface ∉ recognizedNames → registry_add_object interface v = none) ∧
    (interface ∈ recognizedNames →
      ∃ b bv, registry_add_object interface v = some (b, bv) ∧
        (interface = "wl_seat" → bv = min 4 v) ∧
        (interface ≠ "wl_seat" → (bv = 1 ∨ bv = 3) ∧
          ∀ w, registry_add_object interface w = some (b, bv))) := by
  constructor
  · intro hmem
    rw [registry_add_object]
    split_ifs with h1 h2 h3 h4 h5 h6 h7 h8
    · exact absurd (h1 ▸ (by decide : "wl_compositor" ∈ recognizedNames)) hmem
    · exact absurd (h2 ▸ (by decide : "wl_subcompositor" ∈ recognizedNames)) hmem
    · exact absurd (h3 ▸ (by decide : "xdg_wm_base" ∈ recognizedNames)) hmem
    · rcases h4 with h | h
      · exact absurd
          (h ▸ (by decide : "zxdg_decoration_manager" ∈ recognizedNames)) hmem
      · exact absurd
          (h ▸ (by decide : "zxdg_decoration_manager_v1" ∈ recognizedNames)) hmem
    · exact absurd (h5 ▸ (by decide : "wp_viewporter" ∈ recognizedNames)) hmem
    · exact absurd (h6 ▸ (by decide : "wl_shm" ∈ recognizedNames)) hmem
    · exact absurd (h7 ▸ (by decide : "wl_seat" ∈ recognizedNames)) hmem
    · exact absurd
        (h8 ▸ (by decide : "wl_data_device_manager" ∈ recognizedNames)) hmem
    · rfl
  · intro hmem
    simp only [recognizedNames, List.mem_cons, List.not_mem_nil, or_false] at hmem
    rcases hmem with h | h | h | h | h | h | h | h | h <;> subst h
    · exact ⟨.compositor, 1, rfl, fun h => absurd h (by decide),
        fun _ => ⟨Or.inl rfl, fun w => rfl⟩⟩
    · exact ⟨.subcompositor, 1, rfl, fun h => absurd h (by decide),
        fun _ => ⟨Or.inl rfl, fun w => rfl⟩⟩
    · exact ⟨.xdg_wm_base, 1, rfl, fun h => absurd h (by decide),
        fun _ => ⟨Or.inl rfl, fun w => rfl⟩⟩
    · exact ⟨.decoration_manager, 1, rfl, fun h => absurd h (by decide),
        fun _ => ⟨Or.inl rfl, fun w => rfl⟩⟩
    · exact ⟨.decoration_manager, 1, rfl, fun h => absurd h (by decide),
        fun _ => ⟨Or.inl rfl, fun w => rfl⟩⟩
    · exact ⟨.viewporter, 1, rfl, fun h => absurd h (by decide),
        fun _ => ⟨Or.inl rfl, fun w => rfl⟩⟩
    · exact ⟨.shm, 1, rfl, fun h => absurd h (by decide),
        fun _ => ⟨Or.inl rfl, fun w => rfl⟩⟩
    · exact ⟨.seat, min 4 v, rfl, fun _ => rfl, fun h => absurd rfl h⟩
    · exact ⟨.data_device_manager, 3, rfl, fun h => absurd h (by decide),
        fun _ => ⟨Or.inr rfl, fun w => rfl⟩⟩

/-- Concrete instance of registry_bind_versions at the recognized
interface wl_shm offered at version 7. -/
theorem registry_bind_versions_witness :
    ∃ b bv, registry_add_object "wl_shm" 7 = some (b, bv) ∧
      ("wl_shm" = "wl_seat" → bv = min 4 7) ∧
      ("wl_shm" ≠ "wl_seat" → (bv = 1 ∨ bv = 3) ∧
        ∀ w, registry_add_object "wl_shm" w = some (b, bv)) :=
  (registry_bind_versions "wl_shm" 7).2 (by decide)

/-- Claim C5: a toplevel configure with nonzero width and height while
fallback decorations are active resizes the EGL window to
(width - 2 * decorWidth, height - barHeight - decorWidth) while the
application handler resize_event receives the unadjusted (width,
height); without decorations the EGL window also receives the
unadjusted dimensions. -/
theorem toplevel_configure_resize (decorWidth barHeight width height : Int)
    (hw : width ≠ 0) (hh : height ≠ 0) :
    (xdg_toplevel_handle_configure decorWidth barHeight true width height).egl_resize =
      some (width - 2 * decorWidth, height - barHeight - decorWidth) ∧
    (xdg_toplevel_handle_configure decorWidth barHeight true width height).resize_event =
      some (width, height) ∧
    (xdg_toplevel_handle_configure decorWidth barHeight false width height).egl_resize =
      some (width, height) ∧
    (xdg_toplevel_handle_configure decorWidth barHeight false width height).resize_event =
      some (width, height) := by
  simp [xdg_toplevel_handle_configure, hw, hh]
  ring

/-- Concrete instance of toplevel_configure_resize: configure with
width 800, height 600 and decoration margins 4 and 24. -/
theorem toplevel_configure_resize_witness :
    (xdg_toplevel_handle_configure 4 24 true 800 600).egl_resize =
      some (800 - 2 * 4, 600 - 24 - 4) ∧
    (xdg_toplevel_handle_configure 4 24 true 800 600).resize_event =
      some (800, 600) ∧
    (xdg_toplevel_handle_configure 4 24 false 800 600).egl_resize =
      some (800, 600) ∧
    (xdg_toplevel_handle_configure 4 24 false 800 600).resize_event =
      some (800, 600) :=
  toplevel_configure_resize 4 24 800 600 (by decide) (by decide)

/-- Claim C6 counterexample: the claim that every nonzero advertised
rate yields an inter-repeat gap of 1_000_000 / rate microseconds is
false on the code at rate -1: the handler computes the gap from
1_000_000 / ((-1) as u64) = 0 microseconds, while 1_000_000 / (-1) is
-1_000_000, not 0. -/
theorem repeat_info_negative_rate_counterexample :
    keyboard_handle_repeat_info (-1) 500 =
      RepeatInfo.Repeat (Duration.from_millis 500) (Duration.from_micros 0) ∧
    (1000000 : Int) / (-1) ≠ 0 := by
  constructor
  · rw [keyboard_handle_repeat_info, if_neg (by decide)]
    rw [show u64_of_i32 500 = 500 from by decide,
        show u64_of_i32 (-1) = 18446744073709551615 from by decide]
  · decide

/-- Claim C6, amended: the repeat policy becomes NoRepeat exactly when
the advertised rate is zero; for every positive rate and nonnegative
delay (both within i32 range) the delay is the advertised delay in
milliseconds and the gap is 1_000_000 / rate microseconds (a negative
rate instead wraps modulo 2^64 and yields a zero gap); and a key-down
under the NoRepeat policy clears the tracked key, leaves the timer
disarmed, and a subsequent timer wake enqueues no repeat events. -/
theorem repeat_info_policy (rate delay : Int) :
    (keyboard_handle_repeat_info rate delay = RepeatInfo.NoRepeat ↔ rate = 0) ∧
    (0 < rate → rate < 2 ^ 31 → 0 ≤ delay → delay < 2 ^ 31 →
      keyboard_handle_repeat_info rate delay =
        RepeatInfo.Repeat (Duration.from_millis delay.toNat)
          (Duration.from_micros (1000000 / rate.toNat))) ∧
    (∀ (ctx : KeyboardContext) (key count : Nat) (events : List WaylandEvent),
      ctx.repeat_info = RepeatInfo.NoRepeat →
        (ctx.key_down key).repeated_key = none ∧
        (ctx.key_down key).timer = new_itimerspec ∧
        timer_wake_drain (ctx.key_down key).repeated_key count events = events) := by
  refine ⟨?_, ?_, ?_⟩
  · constructor
    · intro h
      by_contra hr
      rw [keyboard_handle_repeat_info, if_neg hr] at h
      exact RepeatInfo.noConfusion h
    · intro h
      rw [keyboard_handle_repeat_info, if_pos h]
  · intro hr hr31 hd hd31
    have hrate : u64_of_i32 rate = rate.toNat := by
      rw [u64_of_i32, Int.emod_eq_of_lt (by omega) (by norm_num; omega)]
    have hdelay : u64_of_i32 delay = delay.toNat := by
      rw [u64_of_i32, Int.emod_eq_of_lt (by omega) (by norm_num; omega)]
    rw [keyboard_handle_repeat_info, if_neg (by omega), hrate, hdelay]
  · intro ctx key count events hctx
    have hkd : ctx.key_down key =
        { ctx with repeated_key := none, timer := new_itimerspec } := by
      rw [KeyboardContext.key_down, hctx]
    rw [hkd]
    exact ⟨rfl, rfl, rfl⟩

/-- Concrete instance of repeat_info_policy: rate 25, delay 600 gives
a 40000 microsecond gap; and with the NoRepeat policy installed, a
key-down for key 30 tracks nothing and a timer wake with counter 3
enqueues nothing. -/
theorem repeat_info_policy_witness :
    keyboard_handle_repeat_info 25 600 =
      RepeatInfo.Repeat (Duration.from_millis (600 : Int).toNat)
        (Duration.from_micros (1000000 / (25 : Int).toNat)) ∧
    (({ KeyboardContext.new with
        repeat_info := RepeatInfo.NoRepeat } : KeyboardContext).key_down 30).repeated_key =
      none ∧
    (({ KeyboardContext.new with
        repeat_info := RepeatInfo.NoRepeat } : KeyboardContext).key_down 30).timer =
      new_itimerspec ∧
    timer_wake_drain
      (({ KeyboardContext.new with
          repeat_info := RepeatInfo.NoRepeat } : KeyboardContext).key_down 30).repeated_key
      3 [] = [] :=
  ⟨(repeat_info_policy 25 600).2.1 (by decide) (by decide) (by decide) (by decide),
   (repeat_info_policy 25 600).2.2
     { KeyboardContext.new with repeat_info := RepeatInfo.NoRepeat } 30 3 [] rfl⟩

/-- Claim C10: a negative advertised rate does not disable repeat: the
cast to u64 wraps modulo 2^64 to rate + 2^64, the gap
1_000_000 / (wrapped rate) evaluates to 0 microseconds, and the policy
is an enabled Repeat with a zero-length gap rather than NoRepeat. -/
theorem negative_rate_wraps (rate delay : Int)
    (hlo : -(2 ^ 31) ≤ rate) (hneg : rate < 0) :
    u64_of_i32 rate = (rate + 2 ^ 64).toNat ∧
    1000000 / u64_of_i32 rate = 0 ∧
    keyboard_handle_repeat_info rate delay =
      RepeatInfo.Repeat (Duration.from_millis (u64_of_i32 delay))
        (Duration.from_micros 0) ∧
    keyboard_handle_repeat_info rate delay ≠ RepeatInfo.NoRepeat := by
  have hwrap : rate % (2 : Int) ^ 64 = rate + 2 ^ 64 := by
    have h64 : ((2 : Int) ^ 64) = 18446744073709551616 := by norm_num
    omega
  have hcast : u64_of_i32 rate = (rate + 2 ^ 64).toNat := by
    rw [u64_of_i32, hwrap]
  have hdiv : 1000000 / u64_of_i32 rate = 0 := by
    apply Nat.div_eq_of_lt
    rw [hcast]
    omega
  have hinfo : keyboard_handle_repeat_info rate delay =
      RepeatInfo.Repeat (Duration.from_millis (u64_of_i32 delay))
        (Duration.from_micros 0) := by
    rw [keyboard_handle_repeat_info, if_neg (by omega), hdiv]
  refine ⟨hcast, hdiv, hinfo, ?_⟩
  rw [hinfo]
  exact fun h => RepeatInfo.noConfusion h

/-- Concrete instance of negative_rate_wraps at rate -1, delay 0. -/
theorem negative_rate_wraps_witness :
    u64_of_i32 (-1) = ((-1 : Int) + 2 ^ 64).toNat ∧
    1000000 / u64_of_i32 (-1) = 0 ∧
    keyboard_handle_repeat_info (-1) 0 =
      RepeatInfo.Repeat (Duration.from_millis (u64_of_i32 0))
        (Duration.from_micros 0) ∧
    keyboard_handle_repeat_info (-1) 0 ≠ RepeatInfo.NoRepeat :=
  negative_rate_wraps (-1) 0 (by norm_num) (by norm_num)
